import Mathlib


/-!
Shallow embedding of the Replicate streamable MCP server
(iceener/replicate-streamable-mcp-server) for checking its
natural-language specification.

The TypeScript sources are translated into executable Lean definitions:

- JSON values and JS truthiness (used by the handlers directly);
- the request-context registry (src/core/context.ts);
- the cancellation token (modelled from the spec, see below);
- the Node HTTP route for the MCP endpoint (src/http/routes/mcp.ts);
- the auth middleware (src/http/middlewares/auth.ts) and the Workers
  API-key check (src/adapters/http-workers/mcp.handler.ts);
- the Workers MCP request handler (src/adapters/http-workers/mcp.handler.ts);
- the two tool handlers with their zod input validation
  (src/tools/search-models.tool.ts, src/tools/generate-image.tool.ts).

Timestamps are passed explicitly (the code reads Date.now()), and the
upstream Replicate collaborator is represented by terminal outcomes so that
"the upstream was contacted" is observable in the model.
-/

/-! ## JSON values and JavaScript truthiness -/

/-- JSON values as produced by JSON.parse. Numbers are modelled as integers;
no claim in this development depends on non-integral numerics. -/
inductive JsonValue where
  | null
  | bool (b : Bool)
  | num (n : Int)
  | str (s : String)
  | arr (elems : List JsonValue)
  | obj (fields : List (String × JsonValue))
deriving Repr

/-- JavaScript truthiness of a JSON value: null, false, 0 and the empty
string are falsy; arrays and objects are always truthy. -/
def jsTruthy : JsonValue → Bool
  | .null => false
  | .bool b => b
  | .num n => n != 0
  | .str s => s != ""
  | .arr _ => true
  | .obj _ => true

/-- Truthiness of a JS property access that may be absent
(absent means undefined, which is falsy). -/
def jsTruthyOpt : Option JsonValue → Bool
  | none => false
  | some v => jsTruthy v

/-- Lookup in an association list, mirroring JS Map.get and property access
on records produced by JSON.parse (whose keys are unique). -/
def mapGet {α β : Type} [DecidableEq α] : List (α × β) → α → Option β
  | [], _ => none
  | (k0, v0) :: rest, k => if k0 = k then some v0 else mapGet rest k

/-- Insertion in an association list, mirroring JS Map.set: an existing
binding for the key is replaced in place, otherwise the pair is appended. -/
def mapSet {α β : Type} [DecidableEq α] : List (α × β) → α → β → List (α × β)
  | [], k, v => [(k, v)]
  | (k0, v0) :: rest, k, v =>
      if k0 = k then (k, v) :: rest else (k0, v0) :: mapSet rest k v

/-! ## JSON-RPC request identifiers -/

/-- A JSON-RPC request id: a string or a number
(TypeScript type string | number). -/
inductive RequestId where
  | s (v : String)
  | n (v : Int)
deriving DecidableEq, Repr

/-- The value of the id property of a JSON-RPC body when the property is
present: either the JSON null or an actual id. JSON-RPC 2.0 restricts ids
to string, number and null. -/
inductive IdField where
  | null
  | ofId (r : RequestId)
deriving DecidableEq, Repr

/-- JavaScript truthiness of the value stored in the id property:
null, 0 and the empty string are falsy. -/
def IdField.truthy : IdField → Bool
  | .null => false
  | .ofId (.n v) => v != 0
  | .ofId (.s v) => v != ""

/-- JavaScript truthiness of a bare request id (used by the wrapped tool
handler, which receives the id already separated from the body). -/
def RequestId.truthy : RequestId → Bool
  | .n v => v != 0
  | .s v => v != ""

/-! ## Cancellation token

Modelled from the spec: src/utils/cancellation.ts is not part of the
snapshot (only its importers are). Per spec section 4.1 the token is a
boolean canceled flag plus a set of listeners; cancel() is an idempotent
transition to Canceled that notifies all listeners, and onCancel(listener)
registers a callback invoked at cancellation time, or immediately if the
token is already canceled. Listeners are modelled by numeric ids and the
set of invoked listeners is recorded explicitly. -/

structure CancellationToken where
  canceled : Bool
  listeners : List Nat
  invoked : List Nat
deriving Repr

/-- Modelled from the spec: fresh token, not canceled, no listeners. -/
def createCancellationToken : CancellationToken :=
  { canceled := false, listeners := [], invoked := [] }

/-- Modelled from the spec: idempotent transition to Canceled; notifies all
registered listeners; side-effect-free if already canceled. -/
def CancellationToken.cancel (t : CancellationToken) : CancellationToken :=
  if t.canceled then t
  else { canceled := true, listeners := t.listeners, invoked := t.invoked ++ t.listeners }

/-- Modelled from the spec: pure query of the canceled flag. -/
def CancellationToken.isCanceled (t : CancellationToken) : Bool :=
  t.canceled

/-- Modelled from the spec: registers a listener; if the token is already
canceled the listener is invoked immediately (no missed signal). -/
def CancellationToken.onCancel (t : CancellationToken) (listener : Nat) : CancellationToken :=
  { canceled := t.canceled,
    listeners := t.listeners ++ [listener],
    invoked := if t.canceled then t.invoked ++ [listener] else t.invoked }

/-! ## Request context registry (src/core/context.ts) -/

/-- Per-request metadata, from src/types/context.ts. -/
structure RequestContext where
  sessionId : Option String
  cancellationToken : CancellationToken
  requestId : Option RequestId
  timestamp : Int
  replicateToken : Option String
deriving Repr

/-- The private contexts map of the ContextRegistry class:
a JS Map from request id to context. -/
abbrev Registry := List (RequestId × RequestContext)

/-- ContextRegistry.create: allocates a context with a fresh cancellation
token and the current timestamp and stores it under the request id
(overwriting any existing binding). Returns the context and the updated
map. The now argument stands for Date.now(). -/
def ContextRegistry.create (reg : Registry) (requestId : RequestId)
    (sessionId : Option String) (replicateToken : Option String) (now : Int) :
    RequestContext × Registry :=
  let context : RequestContext :=
    { sessionId := sessionId,
      cancellationToken := createCancellationToken,
      requestId := some requestId,
      timestamp := now,
      replicateToken := replicateToken }
  (context, mapSet reg requestId context)

/-- ContextRegistry.get. -/
def ContextRegistry.get (reg : Registry) (requestId : RequestId) : Option RequestContext :=
  mapGet reg requestId

/-- ContextRegistry.cancel: false if no context exists for the id;
otherwise signals the cancellation token of that context (the stored
context is the same object, so the map now holds the canceled token)
and returns true. -/
def ContextRegistry.cancel (reg : Registry) (requestId : RequestId) : Bool × Registry :=
  match mapGet reg requestId with
  | none => (false, reg)
  | some context =>
      (true,
       mapSet reg requestId
         { context with cancellationToken := context.cancellationToken.cancel })

/-- ContextRegistry.delete. -/
def ContextRegistry.delete (reg : Registry) (requestId : RequestId) : Registry :=
  reg.filter (fun entry => decide (entry.1 ≠ requestId))

/-- ContextRegistry.cleanupExpired: deletes every context whose age at the
current instant exceeds maxAge = 10 * 60 * 1000 milliseconds. -/
def ContextRegistry.cleanupExpired (reg : Registry) (now : Int) : Registry :=
  reg.filter (fun entry => ! decide (now - entry.2.timestamp > 10 * 60 * 1000))

/-! ## Node MCP route: context creation and the wrapped tool handler
(src/http/routes/mcp.ts and src/tools/index.ts) -/

/-- The parsed JSON-RPC body as the Node route inspects it: the method
property and the id property (absent, null, or an id value). -/
structure McpBody where
  method : Option String
  idField : Option IdField
deriving Repr

/-- The context-creation step of the POST route (src/http/routes/mcp.ts,
lines 98-105): a request context is created only when the body is an object
whose id property is present AND truthy in the JavaScript sense
(the guard is: body and typeof body is object and id in body and body.id).
The body is None when c.req.json() threw. -/
def routeCreateContext (reg : Registry) (body : Option McpBody)
    (plannedSid : Option String) (replicateToken : Option String) (now : Int) : Registry :=
  match body with
  | none => reg
  | some b =>
    match b.idField with
    | none => reg
    | some f =>
      if f.truthy then
        match f with
        | .ofId r => (ContextRegistry.create reg r plannedSid replicateToken now).2
        | .null => reg
      else reg

/-- A fresh unregistered context, as built by createWrappedHandler when the
extra argument carries no (truthy) request id. -/
def freshLocalContext (now : Int) : RequestContext :=
  { sessionId := none,
    cancellationToken := createCancellationToken,
    requestId := none,
    timestamp := now,
    replicateToken := none }

/-- The registry effect of createWrappedHandler (src/tools/index.ts,
lines 58-89). Returns the context handed to the tool handler, the registry
while the handler runs, and the registry after the finally block. The guard
on requestId is JS truthiness, so a requestId of 0 or the empty string is
treated like an absent one: a fresh local context is used, nothing is
registered, and nothing is deleted afterwards. -/
def wrappedHandlerStates (reg : Registry) (requestId : Option RequestId) (now : Int) :
    RequestContext × Registry × Registry :=
  match requestId with
  | some r =>
    if r.truthy then
      match ContextRegistry.get reg r with
      | some c => (c, reg, ContextRegistry.delete reg r)
      | none =>
        let created := ContextRegistry.create reg r none none now
        (created.1, created.2, ContextRegistry.delete created.2 r)
    else (freshLocalContext now, reg, reg)
  | none => (freshLocalContext now, reg, reg)

/-! ## Node MCP route: session handling and idempotent connect
(src/http/routes/mcp.ts) -/

/-- The map of live transports, keyed by session id; a transport instance
is represented by a numeric handle. -/
abbrev TransportMap := List (String × Nat)

/-- Outcome of the session-resolution part of the POST route: either the
stale-session JSON-RPC error is returned directly, or the request proceeds
to transport.handleRequest on the given transport. -/
inductive NodePostStep where
  | staleSession (status : Nat) (code : Int) (message : String) (payloadId : IdField)
  | handle (transport : Nat) (isNew : Bool)
deriving DecidableEq, Repr

/-- The id echoed in the stale-session error payload:
(body as id?)?.id ?? null. -/
def nodeBodyIdOrNull (body : Option McpBody) : IdField :=
  match body with
  | some b =>
    match b.idField with
    | some f => f
    | none => .null
  | none => .null

/-- Whether the body is an initialize call:
Boolean(body and body.method === initialize). -/
def isInitBody (body : Option McpBody) : Bool :=
  match body with
  | some b => b.method = some "initialize"
  | none => false

/-- The session-resolution step of the POST route (src/http/routes/mcp.ts,
lines 34-89). The header lookup uses JS truthiness (an empty header value
behaves like an absent header). When the header names no live transport and
the call is not initialize, the route replies with the -32600 stale-session
error and HTTP 400, leaving the transport map untouched. Otherwise a
transport is found or created; a newly created transport is entered into
the map under the planned session id only for initialize calls (via the
onsessioninitialized callback), with plannedSid = header or a fresh UUID.
nextTransport stands for the handle of a newly constructed
StreamableHTTPServerTransport, freshUuid for randomUUID(). -/
def nodePostSessionStep (transports : TransportMap) (nextTransport : Nat)
    (sessionIdHeader : Option String) (body : Option McpBody) (freshUuid : String) :
    NodePostStep × TransportMap :=
  let isInit := isInitBody body
  let headerVal : Option String :=
    match sessionIdHeader with
    | some h => if h = "" then none else some h
    | none => none
  match headerVal with
  | some h =>
    match mapGet transports h with
    | some t => (.handle t false, transports)
    | none =>
      if isInit then
        (.handle nextTransport true, mapSet transports h nextTransport)
      else
        (.staleSession 400 (-32600) "Invalid session. Please re-initialize."
          (nodeBodyIdOrNull body), transports)
  | none =>
    if isInit then
      (.handle nextTransport true, mapSet transports freshUuid nextTransport)
    else
      (.handle nextTransport true, transports)

/-- The connection state of the route module: the WeakSet of transports
already connected to the MCP server, and the ordered log of
server.connect invocations. -/
structure ConnState where
  connectedTransports : List Nat
  connectLog : List Nat
deriving Repr

/-- ensureConnected (src/http/routes/mcp.ts, lines 23-28): connect the
transport to the server only if it is not already in the WeakSet. -/
def ensureConnected (s : ConnState) (t : Nat) : ConnState :=
  if t ∈ s.connectedTransports then s
  else { connectedTransports := t :: s.connectedTransports,
         connectLog := s.connectLog ++ [t] }

/-- State of the route module at startup: nothing connected yet. -/
def initialConnState : ConnState := { connectedTransports := [], connectLog := [] }

/-- Run a sequence of ensureConnected calls. -/
def runEnsure (s : ConnState) (calls : List Nat) : ConnState :=
  calls.foldl ensureConnected s

/-- Invariant tying the WeakSet to the connect log. -/
def connInvariant (s : ConnState) : Prop :=
  ∀ t, s.connectLog.count t ≤ 1 ∧ (t ∈ s.connectedTransports ↔ t ∈ s.connectLog)

/-! ## Authentication (src/http/middlewares/auth.ts and the Workers
validateApiKey in src/adapters/http-workers/mcp.handler.ts) -/

/-- The whitespace class of the JS regex escape backslash-s, restricted to
the characters that can occur in HTTP header values (the exotic Unicode
space members cannot). -/
def isJsSpace (c : Char) : Bool :=
  c = ' ' || c = '\t' || c = '\n' || c = '\r' || c = '\x0b' || c = '\x0c'

/-- Characters the JS regex dot does not match (no s flag). -/
def isLineTerm (c : Char) : Bool :=
  c = '\n' || c = '\r' || c = '\u2028' || c = '\u2029'

/-- Strip the scheme word Bearer, case-insensitively, from the front of the
character list. -/
def stripBearerScheme (cs : List Char) : Option (List Char) :=
  match cs with
  | b :: e1 :: a :: r1 :: e2 :: r2 :: rest =>
    if b.toLower = 'b' && e1.toLower = 'e' && a.toLower = 'a' &&
       r1.toLower = 'r' && e2.toLower = 'e' && r2.toLower = 'r'
    then some rest else none
  | _ => none

/-- The capture group of the header match against the anchored,
case-insensitive JS regex: optional whitespace, the scheme Bearer, at least
one whitespace character, then the greedy dot-plus capture running to the
end of the string. Because the dot does not match line terminators, a
remainder containing one yields no match; when the remainder after the
scheme is all whitespace, backtracking leaves the final whitespace
character as the capture (provided at least two whitespace characters
follow the scheme and the last is not a line terminator). -/
def extractBearerToken (header : String) : Option String :=
  let cs := header.data.dropWhile isJsSpace
  match stripBearerScheme cs with
  | none => none
  | some rest =>
    let ws := rest.takeWhile isJsSpace
    let tail := rest.dropWhile isJsSpace
    if ws.length = 0 then none
    else if tail.isEmpty then
      match ws.getLast? with
      | some c => if 2 ≤ ws.length && !isLineTerm c then some (String.mk [c]) else none
      | none => none
    else if tail.any isLineTerm then none
    else some (String.mk tail)

/-- Server configuration, from src/shared/config/env.ts. Only the fields
the embedded handlers read are modelled. API_KEY and REPLICATE_API_TOKEN
are string or undefined; the code tests them with JS truthiness, so the
empty string behaves like an unset value. -/
structure UnifiedConfig where
  API_KEY : Option String
  REPLICATE_API_TOKEN : Option String
deriving Repr

/-- JS truthiness of an optional string config value or header. -/
def strTruthy : Option String → Bool
  | none => false
  | some s => s != ""

/-- An incoming HTTP request as the MCP handlers read it: the two auth
headers, the Mcp-Session-Id header, and the JSON-RPC body. body = none
models a body that request.json() failed to parse. -/
structure WorkersRequest where
  authorization : Option String
  xApiKey : Option String
  mcpSessionId : Option String
  body : Option McpBody
deriving Repr

/-- validateApiKey (src/adapters/http-workers/mcp.handler.ts, lines 70-90):
with no API_KEY configured (unset or empty, both falsy) every request is
allowed; otherwise the Bearer token of the Authorization header or the
X-Api-Key header value must equal the configured key. -/
def validateApiKey (req : WorkersRequest) (config : UnifiedConfig) : Bool :=
  if !strTruthy config.API_KEY then true
  else
    match config.API_KEY with
    | none => true
    | some key =>
      let bearerOk :=
        match req.authorization with
        | some h =>
          match extractBearerToken h with
          | some tok => tok == key
          | none => false
        | none => false
      if bearerOk then true
      else
        match req.xApiKey with
        | some v => v == key
        | none => false

/-- Auth context attached by the Node middleware
(src/http/middlewares/auth.ts). -/
structure ReplicateAuthContext where
  authenticated : Bool
  replicateToken : Option String
deriving DecidableEq, Repr

/-- replicateAuthMiddleware (src/http/middlewares/auth.ts, lines 28-61):
computes the auth context from the two headers; with no API_KEY configured
the request is authenticated (dev mode); the Replicate token always comes
from the server config. -/
def replicateAuthMiddleware (authHeader xApiKey : Option String)
    (config : UnifiedConfig) : ReplicateAuthContext :=
  if !strTruthy config.API_KEY then
    { authenticated := true, replicateToken := config.REPLICATE_API_TOKEN }
  else
    match config.API_KEY with
    | none => { authenticated := true, replicateToken := config.REPLICATE_API_TOKEN }
    | some key =>
      let afterBearer :=
        match authHeader with
        | some h =>
          match extractBearerToken h with
          | some tok => tok == key
          | none => false
        | none => false
      let afterXKey :=
        match xApiKey with
        | some v => afterBearer || v == key
        | none => afterBearer
      { authenticated := afterXKey, replicateToken := config.REPLICATE_API_TOKEN }

/-- Outcome of the requireAuth middleware: reject with an HTTP status and a
JSON-RPC error payload (code, message, id null), or pass the request on. -/
inductive AuthGate where
  | reject (status : Nat) (code : Int) (message : String)
  | proceed
deriving DecidableEq, Repr

/-- requireAuth (src/http/middlewares/auth.ts, lines 67-87): rejects with
HTTP 401 and JSON-RPC error -32001 unless the attached auth context says
authenticated. -/
def requireAuth (auth : Option ReplicateAuthContext) : AuthGate :=
  match auth with
  | some a =>
    if a.authenticated then .proceed
    else .reject 401 (-32001) "Unauthorized: Invalid or missing API key"
  | none => .reject 401 (-32001) "Unauthorized: Invalid or missing API key"

/-! ## Workers MCP request handler
(src/adapters/http-workers/mcp.handler.ts) -/

/-- Result of dispatchMcpMethod (src/shared/mcp/dispatcher.ts, an external
collaborator of this handler): a JSON-RPC result value or an error. -/
inductive DispatchResult where
  | ok (result : JsonValue)
  | err (code : Int) (message : String)

/-- The JSON-RPC response payload the handler serialises: exactly one of
result or error is present, plus the echoed id. -/
structure JsonRpcPayload where
  result : Option JsonValue
  error : Option (Int × String)
  id : IdField
deriving Repr

/-- Exactly one of result and error is populated. -/
def JsonRpcPayload.wellFormed (p : JsonRpcPayload) : Prop :=
  (p.result.isSome ∧ p.error = none) ∨ (p.result = none ∧ p.error.isSome)

/-- An HTTP response of the Workers handler: status, optional JSON-RPC
payload (none means an empty body), and the optional Mcp-Session-Id
response header. -/
structure HttpResponse where
  status : Nat
  payload : Option JsonRpcPayload
  sessionHeader : Option String
deriving Repr

/-- The session id the handler computes:
incomingSessionId?.trim() || crypto.randomUUID(). -/
def workersSessionId (req : WorkersRequest) (freshUuid : String) : String :=
  match req.mcpSessionId with
  | some h => if h.trim = "" then freshUuid else h.trim
  | none => freshUuid

/-- The effective body: a parse failure is replaced by the empty object
(await request.json().catch(() => ({}))), whose method and id properties
are both absent. -/
def workersEffectiveBody (req : WorkersRequest) : McpBody :=
  match req.body with
  | some b => b
  | none => { method := none, idField := none }

/-- The 401 response for a failed API-key check. -/
def unauthorizedResponse : HttpResponse :=
  { status := 401,
    payload := some { result := none,
                      error := some (-32001, "Unauthorized: Invalid or missing API key"),
                      id := .null },
    sessionHeader := none }

/-- handleMcpRequest (src/adapters/http-workers/mcp.handler.ts, lines
99-178). The dispatcher is passed as a function of the method name (its
internals live in src/shared/mcp/dispatcher.ts, outside this embedding);
its side effects on the session and cancellation maps do not influence the
shape of the response. A body without an id property, or with id null, is a
notification: the optional handleMcpNotification call is for side effects
only and the response is an empty 202. A JSON value id of undefined cannot
arise from request.json(), so idField covers the id check of the code. -/
def handleMcpRequest (dispatch : Option String → DispatchResult)
    (req : WorkersRequest) (config : UnifiedConfig) (freshUuid : String) : HttpResponse :=
  if !validateApiKey req config then unauthorizedResponse
  else
    let sessionId := workersSessionId req freshUuid
    let body := workersEffectiveBody req
    match body.idField with
    | none => { status := 202, payload := none, sessionHeader := none }
    | some .null => { status := 202, payload := none, sessionHeader := none }
    | some (.ofId r) =>
      match dispatch body.method with
      | .err code message =>
        { status := 200,
          payload := some { result := none, error := some (code, message), id := .ofId r },
          sessionHeader := some sessionId }
      | .ok v =>
        { status := 200,
          payload := some { result := some v, error := none, id := .ofId r },
          sessionHeader := some sessionId }

/-! ## Tool input validation and handlers
(src/tools/search-models.tool.ts and src/tools/generate-image.tool.ts)

The schemas are built with strictSchema over zod field schemas. The zod
library is the validation engine used by the code: safeParse collects one
issue per failed check (a chained string schema evaluates every check, so
one field can contribute several issues), reporting a missing required
field as the message Required and a type mismatch as Expected t1, received
t2. strictSchema itself (src/schemas/common.ts) is not part of the
snapshot; modelled from the spec, the validation step returns a structured
list of (field path, message) pairs for the declared fields. -/

/-- The name zod uses for the parsed type of a JSON value in type-mismatch
messages. -/
def zodTypeName : JsonValue → String
  | .null => "null"
  | .bool _ => "boolean"
  | .num _ => "number"
  | .str _ => "string"
  | .arr _ => "array"
  | .obj _ => "object"

/-- A validation issue as the handlers consume it: field path and
message. -/
abbrev ZodIssue := List String × String

/-- Validation of the search_models input schema:
query must be a string with at least one character. -/
def validateSearchModels (args : JsonValue) : List ZodIssue :=
  match args with
  | .obj fields =>
    match mapGet fields "query" with
    | none => [(["query"], "Required")]
    | some (.str s) =>
        if s.length < 1 then [(["query"], "Query cannot be empty")] else []
    | some v => [(["query"], "Expected string, received " ++ zodTypeName v)]
  | v => [([], "Expected object, received " ++ zodTypeName v)]

/-- Split a character list at every slash (the list analogue of splitting
the string on the slash separator). -/
def slashSplit (cs : List Char) : List (List Char) :=
  match cs with
  | [] => [[]]
  | c :: rest =>
    let r := slashSplit rest
    if c = '/' then [] :: r
    else
      match r with
      | h :: t => (c :: h) :: t
      | [] => [[c]]

/-- The anchored model-format regex of the generate_image schema: one slash
with a nonempty slash-free part on each side. -/
def modelFormatOk (s : String) : Bool :=
  match slashSplit s.data with
  | [owner, modelName] => !owner.isEmpty && !modelName.isEmpty
  | _ => false

/-- Validation of the generate_image input schema: model must be a
nonempty string matching the owner/name format (both checks run, each
failing one contributes an issue, as zod evaluates every chained string
check), and input must be an object (z.record). -/
def validateGenerateImage (args : JsonValue) : List ZodIssue :=
  match args with
  | .obj fields =>
    let modelIssues :=
      match mapGet fields "model" with
      | none => [(["model"], "Required")]
      | some (.str s) =>
          (if s.length < 1 then [(["model"], "Model cannot be empty")] else []) ++
          (if modelFormatOk s then []
           else [(["model"],
             "Model must be in format \"owner/name\" (e.g., \"black-forest-labs/flux-schnell\")")])
      | some v => [(["model"], "Expected string, received " ++ zodTypeName v)]
    let inputIssues :=
      match mapGet fields "input" with
      | none => [(["input"], "Required")]
      | some (.obj _) => []
      | some v => [(["input"], "Expected object, received " ++ zodTypeName v)]
    modelIssues ++ inputIssues
  | v => [([], "Expected object, received " ++ zodTypeName v)]

/-- The per-issue message lines the handlers build:
one line per issue, dash, dotted path, colon, message. -/
def errLines (issues : List ZodIssue) : List String :=
  issues.map (fun issue => "- " ++ String.intercalate "." issue.1 ++ ": " ++ issue.2)

/-- The distinct invalid field paths among a list of issues. -/
def invalidFields (issues : List ZodIssue) : List (List String) :=
  (issues.map Prod.fst).dedup

/-- A CallToolResult as the claims observe it: the isError mark and the
text of the single text content block. -/
structure CallToolResult where
  isError : Bool
  text : String
deriving DecidableEq, Repr

/-- How a tool handler invocation proceeds: it returns a result without
touching the upstream Replicate collaborator, or it reaches the upstream
call (searchModels or runPrediction in src/services/api/replicate.service.ts,
whose network behavior is outside this embedding), or it would throw — an
exception escaping toward the transport. The embedded handlers never build
the thrown outcome: every pre-upstream path returns a result. -/
inductive ToolStep where
  | reply (r : CallToolResult)
  | upstreamSearch (query : String) (token : String)
  | upstreamPredict (model : String) (input : List (String × JsonValue)) (token : String)
  | thrown (message : String)

/-- The configuration-error text shared by both handlers. -/
def serverConfigErrorText : String :=
  "## Server Configuration Error\n\nREPLICATE_API_TOKEN is not configured on the server.\n\nContact the server administrator."

/-- The Missing Required Input text of the generate_image handler. -/
def missingRequiredInputText (model : String) : String :=
  "## Missing Required Input\n\nMost image models require at least a prompt or image in the input.\n\nExample:\n\x7b\n  \"model\": \"" ++ model ++
    "\",\n  \"input\": \x7b\n    \"prompt\": \"a beautiful sunset over mountains\"\n  \x7d\n\x7d\n\nUse search_models to see the exact requirements for \"" ++ model ++ "\"."

/-- The parsed query of a schema-valid search_models argument object. -/
def getQueryStr (args : JsonValue) : String :=
  match args with
  | .obj fields =>
    match mapGet fields "query" with
    | some (.str s) => s
    | _ => ""
  | _ => ""

/-- The parsed model of a schema-valid generate_image argument object. -/
def getModelStr (args : JsonValue) : String :=
  match args with
  | .obj fields =>
    match mapGet fields "model" with
    | some (.str s) => s
    | _ => ""
  | _ => ""

/-- The parsed input record of a schema-valid generate_image argument
object. -/
def getInputFields (args : JsonValue) : List (String × JsonValue) :=
  match args with
  | .obj fields =>
    match mapGet fields "input" with
    | some (.obj inputFields) => inputFields
    | _ => []
  | _ => []

/-- The search_models handler (src/tools/search-models.tool.ts, lines
22-55) up to the upstream call: schema failure returns the per-issue error
list as an isError result; a missing (falsy) server-side Replicate token
returns the configuration error; otherwise the upstream search is
invoked. -/
def searchModelsHandler (args : JsonValue) (ctxReplicateToken : Option String) : ToolStep :=
  let issues := validateSearchModels args
  if !issues.isEmpty then
    .reply { isError := true,
             text := "## Invalid Input\n\n" ++ String.intercalate "\n" (errLines issues) }
  else if !strTruthy ctxReplicateToken then
    .reply { isError := true, text := serverConfigErrorText }
  else
    .upstreamSearch (getQueryStr args) (ctxReplicateToken.getD "")

/-- The generate_image handler (src/tools/generate-image.tool.ts, lines
37-98) up to the upstream call: schema failure returns the per-issue error
list (with the tip line) as an isError result; a falsy server-side token
returns the configuration error; an input with neither a truthy prompt nor
a truthy image returns the Missing Required Input error; otherwise the
upstream prediction is invoked. -/
def generateImageHandler (args : JsonValue) (ctxReplicateToken : Option String) : ToolStep :=
  let issues := validateGenerateImage args
  if !issues.isEmpty then
    .reply { isError := true,
             text := "## Invalid Input\n\n" ++ String.intercalate "\n" (errLines issues) ++
               "\n\nTip: Use search_models to see the correct input schema for your model." }
  else if !strTruthy ctxReplicateToken then
    .reply { isError := true, text := serverConfigErrorText }
  else
    let model := getModelStr args
    let input := getInputFields args
    if !jsTruthyOpt (mapGet input "prompt") && !jsTruthyOpt (mapGet input "image") then
      .reply { isError := true, text := missingRequiredInputText model }
    else
      .upstreamPredict model input (ctxReplicateToken.getD "")

/-! ## Theorems

The helper lemmas come first; each claim of the specification then gets
one theorem, with its witness or counterexample where applicable. -/

/-- Looking up a key right after setting it yields the stored value
(JS Map.set followed by Map.get). -/
theorem mapGet_mapSet_self {α β : Type} [DecidableEq α]
    (m : List (α × β)) (k : α) (v : β) : mapGet (mapSet m k v) k = some v := by
  induction m with
  | nil => simp [mapSet, mapGet]
  | cons hd tl ih =>
      by_cases h : hd.1 = k
      · simp [mapSet, mapGet, h]
      · simpa [mapSet, mapGet, h] using ih

/-- C6: for every request id R, cancel(R) returns false and changes nothing
when no context exists for R; when a context exists it returns true, the
token of the stored context subsequently reports canceled, and a listener
registered after cancellation is still invoked. -/
theorem C6_cancel_behavior (reg : Registry) (r : RequestId) :
    (ContextRegistry.get reg r = none → ContextRegistry.cancel reg r = (false, reg)) ∧
    (∀ c, ContextRegistry.get reg r = some c →
      (ContextRegistry.cancel reg r).1 = true ∧
      ∃ c2, ContextRegistry.get (ContextRegistry.cancel reg r).2 r = some c2 ∧
        c2.cancellationToken.isCanceled = true ∧
        ∀ l, l ∈ (c2.cancellationToken.onCancel l).invoked) := by
  constructor
  · intro h
    simp [ContextRegistry.cancel, ContextRegistry.get] at h ⊢
    rw [h]
  · intro c hc
    simp only [ContextRegistry.get] at hc
    refine ⟨by simp [ContextRegistry.cancel, hc], ?_⟩
    refine ⟨{ c with cancellationToken := c.cancellationToken.cancel }, ?_, ?_, ?_⟩
    · simp only [ContextRegistry.cancel, ContextRegistry.get, hc]
      exact mapGet_mapSet_self reg r _
    · by_cases h : c.cancellationToken.canceled <;>
        simp [CancellationToken.cancel, CancellationToken.isCanceled, h]
    · intro l
      by_cases h : c.cancellationToken.canceled <;>
        simp [CancellationToken.cancel, CancellationToken.onCancel, h]

theorem ensureConnected_invariant (s : ConnState) (t : Nat)
    (h : connInvariant s) : connInvariant (ensureConnected s t) := by
  intro u
  by_cases hmem : t ∈ s.connectedTransports
  · simpa [ensureConnected, hmem] using h u
  · have hu := h u
    have ht := h t
    simp only [ensureConnected, hmem, if_false]
    constructor
    · rcases hu with ⟨hc, _⟩
      by_cases hut : u = t
      · subst hut
        have hnot : u ∉ s.connectLog := fun hin => hmem ((h u).2.mpr hin)
        simp [List.count_append, List.count_eq_zero.mpr hnot]
      · simpa [List.count_append, hut] using hc
    · rcases hu with ⟨_, hiff⟩
      simp only [List.mem_cons, List.mem_append, List.mem_singleton,
        List.not_mem_nil, or_false]
      tauto

theorem runEnsure_invariant (calls : List Nat) (s : ConnState)
    (h : connInvariant s) : connInvariant (runEnsure s calls) := by
  induction calls generalizing s with
  | nil => simpa [runEnsure] using h
  | cons c rest ih =>
      simpa [runEnsure] using ih (ensureConnected s c) (ensureConnected_invariant s c h)

/-- C2: for every authenticated POST handled by the Workers MCP handler, a
body carrying a non-null id (including id = 0) produces exactly one
JSON-RPC response payload, holding either a result or an error and echoing
that same id; a body with no id property or an explicit null id (also when
the raw body failed to parse) is treated as a notification: HTTP 202,
empty body, no JSON-RPC payload. -/
theorem C2_request_vs_notification (dispatch : Option String → DispatchResult)
    (req : WorkersRequest) (config : UnifiedConfig) (freshUuid : String)
    (hauth : validateApiKey req config = true) :
    (∀ r, (workersEffectiveBody req).idField = some (.ofId r) →
      ∃ p, handleMcpRequest dispatch req config freshUuid =
          { status := 200, payload := some p,
            sessionHeader := some (workersSessionId req freshUuid) } ∧
        p.id = .ofId r ∧ p.wellFormed) ∧
    ((workersEffectiveBody req).idField = none ∨
        (workersEffectiveBody req).idField = some .null →
      handleMcpRequest dispatch req config freshUuid =
        { status := 202, payload := none, sessionHeader := none }) := by
  constructor
  · intro r hid
    cases hd : dispatch (workersEffectiveBody req).method with
    | ok v =>
        exact ⟨{ result := some v, error := none, id := .ofId r },
          by simp [handleMcpRequest, hauth, hid, hd],
          rfl, Or.inl (by simp)⟩
    | err code message =>
        exact ⟨{ result := none, error := some (code, message), id := .ofId r },
          by simp [handleMcpRequest, hauth, hid, hd],
          rfl, Or.inr (by simp)⟩
  · intro hid
    rcases hid with hid | hid <;> simp [handleMcpRequest, hauth, hid]

/-- Witness for C2: with no API key configured and a dispatcher returning a
null result, a request with id 0 is answered with a payload echoing id 0,
and a request with no id gets the empty 202. -/
theorem C2_request_vs_notification_witness :
    (∃ p, handleMcpRequest (fun _ => .ok .null)
        { authorization := none, xApiKey := none, mcpSessionId := none,
          body := some { method := some "tools/list", idField := some (.ofId (.n 0)) } }
        { API_KEY := none, REPLICATE_API_TOKEN := none } "uuid-2" =
        { status := 200, payload := some p, sessionHeader := some "uuid-2" } ∧
      p.id = .ofId (.n 0) ∧ p.wellFormed) ∧
    handleMcpRequest (fun _ => .ok .null)
        { authorization := none, xApiKey := none, mcpSessionId := none,
          body := some { method := some "notifications/progress", idField := none } }
        { API_KEY := none, REPLICATE_API_TOKEN := none } "uuid-2" =
      { status := 202, payload := none, sessionHeader := none } := by
  constructor
  · exact (C2_request_vs_notification (fun _ => .ok .null)
      { authorization := none, xApiKey := none, mcpSessionId := none,
        body := some { method := some "tools/list", idField := some (.ofId (.n 0)) } }
      { API_KEY := none, REPLICATE_API_TOKEN := none } "uuid-2" rfl).1 (.n 0) rfl
  · exact (C2_request_vs_notification (fun _ => .ok .null)
      { authorization := none, xApiKey := none, mcpSessionId := none,
        body := some { method := some "notifications/progress", idField := none } }
      { API_KEY := none, REPLICATE_API_TOKEN := none } "uuid-2" rfl).2 (Or.inl rfl)

/-- The Node auth middleware computes the same accept decision as the
Workers validateApiKey on the same pair of headers. -/
theorem auth_middleware_matches (req : WorkersRequest) (config : UnifiedConfig) :
    (replicateAuthMiddleware req.authorization req.xApiKey config).authenticated =
      validateApiKey req config := by
  by_cases h0 : strTruthy config.API_KEY
  · cases hkey : config.API_KEY with
    | none => simp [strTruthy, hkey] at h0
    | some key =>
        have h1 : strTruthy (some key) = true := by rw [← hkey]; exact h0
        simp only [replicateAuthMiddleware, validateApiKey, hkey, h1, Bool.not_true,
          Bool.false_eq_true, if_false]
        cases ha : req.authorization with
        | none => cases hx : req.xApiKey <;> simp
        | some hdr =>
            cases hb : extractBearerToken hdr with
            | none => cases hx : req.xApiKey <;> simp [hb]
            | some tok =>
                by_cases htok : tok = key
                · cases hx : req.xApiKey <;> simp [hb, htok]
                · cases hx : req.xApiKey <;> simp [hb, htok]
  · have h0f : strTruthy config.API_KEY = false := by simpa using h0
    simp [replicateAuthMiddleware, validateApiKey, h0f]

/-- With a nonempty API key configured, validateApiKey accepts exactly the
requests carrying a matching Bearer token or a matching X-Api-Key header. -/
theorem validateApiKey_true_iff (req : WorkersRequest) (config : UnifiedConfig)
    (key : String) (hkey : config.API_KEY = some key) (hne : key ≠ "") :
    validateApiKey req config = true ↔
      (∃ h, req.authorization = some h ∧ extractBearerToken h = some key) ∨
        req.xApiKey = some key := by
  have h1 : strTruthy (some key) = true := by simp [strTruthy, hne]
  simp only [validateApiKey, hkey, h1, Bool.not_true, Bool.false_eq_true, if_false]
  cases ha : req.authorization with
  | none => cases hx : req.xApiKey <;> simp
  | some hdr =>
      cases hb : extractBearerToken hdr with
      | none => cases hx : req.xApiKey <;> simp [hb]
      | some tok =>
          by_cases htok : tok = key
          · cases hx : req.xApiKey <;> simp [hb, htok]
          · cases hx : req.xApiKey <;> simp [hb, htok]

/-- C4: with no (truthy) API-key secret configured every request passes the
check; with a secret configured a request passes if and only if its
Authorization header carries a Bearer token equal to the secret or its
X-Api-Key header equals the secret; a failed check makes the Workers
handler answer 401 with JSON-RPC error -32001 regardless of the body, and
the Node middleware pair computes the same decision, rejecting with 401
and -32001 exactly when the check fails. -/
theorem C4_api_key_auth (req : WorkersRequest) (config : UnifiedConfig) :
    (strTruthy config.API_KEY = false → validateApiKey req config = true) ∧
    (∀ key, config.API_KEY = some key → key ≠ "" →
      (validateApiKey req config = true ↔
        (∃ h, req.authorization = some h ∧ extractBearerToken h = some key) ∨
          req.xApiKey = some key)) ∧
    (validateApiKey req config = false →
      ∀ dispatch freshUuid,
        handleMcpRequest dispatch req config freshUuid = unauthorizedResponse) ∧
    ((replicateAuthMiddleware req.authorization req.xApiKey config).authenticated =
      validateApiKey req config) ∧
    (requireAuth (some (replicateAuthMiddleware req.authorization req.xApiKey config)) =
      if validateApiKey req config then .proceed
      else .reject 401 (-32001) "Unauthorized: Invalid or missing API key") := by
  refine ⟨?_, ?_, ?_, auth_middleware_matches req config, ?_⟩
  · intro hfalsy
    simp [validateApiKey, hfalsy]
  · intro key hkey hne
    exact validateApiKey_true_iff req config key hkey hne
  · intro hfail dispatch freshUuid
    simp [handleMcpRequest, hfail]
  · have hm := auth_middleware_matches req config
    by_cases hv : validateApiKey req config
    · simp [requireAuth, hm, hv]
    · have hv2 : validateApiKey req config = false := by simpa using hv
      simp [requireAuth, hm, hv2]

/-- Witness for C4: the header Bearer secret authenticates against the
configured secret, and a request with only a wrong X-Api-Key gets the
-32001 unauthorized response from the Workers handler. -/
theorem C4_api_key_auth_witness :
    validateApiKey
        { authorization := some "Bearer secret", xApiKey := none,
          mcpSessionId := none, body := none }
        { API_KEY := some "secret", REPLICATE_API_TOKEN := none } = true ∧
    handleMcpRequest (fun _ => .ok .null)
        { authorization := none, xApiKey := some "wrong",
          mcpSessionId := none, body := none }
        { API_KEY := some "secret", REPLICATE_API_TOKEN := none } "uuid-4" =
      unauthorizedResponse := by
  constructor
  · exact ((C4_api_key_auth
        { authorization := some "Bearer secret", xApiKey := none,
          mcpSessionId := none, body := none }
        { API_KEY := some "secret", REPLICATE_API_TOKEN := none }).2.1
        "secret" rfl (by decide)).mpr
      (Or.inl ⟨"Bearer secret", rfl, by decide⟩)
  · exact (C4_api_key_auth
        { authorization := none, xApiKey := some "wrong",
          mcpSessionId := none, body := none }
        { API_KEY := some "secret", REPLICATE_API_TOKEN := none }).2.2.1
      (by decide) (fun _ => .ok .null) "uuid-4"

/-- C9: an authenticated POST whose body is not valid JSON is handled as if
the body were the empty object, hence as a notification: the Workers
handler returns HTTP 202 with an empty body and never a JSON-RPC error
payload of any kind. -/
theorem C9_invalid_json_is_notification (dispatch : Option String → DispatchResult)
    (req : WorkersRequest) (config : UnifiedConfig) (freshUuid : String)
    (hauth : validateApiKey req config = true) (hbody : req.body = none) :
    handleMcpRequest dispatch req config freshUuid =
      { status := 202, payload := none, sessionHeader := none } := by
  simp [handleMcpRequest, hauth, workersEffectiveBody, hbody]

/-- Witness for C9: a concrete unauthenticated-mode request with an
unparsable body gets the empty 202. -/
theorem C9_invalid_json_is_notification_witness :
    handleMcpRequest (fun _ => .err (-32601) "Method not found")
        { authorization := none, xApiKey := none, mcpSessionId := none, body := none }
        { API_KEY := none, REPLICATE_API_TOKEN := some "r8_token" } "uuid-3" =
      { status := 202, payload := none, sessionHeader := none } :=
  C9_invalid_json_is_notification (fun _ => .err (-32601) "Method not found")
    { authorization := none, xApiKey := none, mcpSessionId := none, body := none }
    { API_KEY := none, REPLICATE_API_TOKEN := some "r8_token" } "uuid-3" rfl rfl

/-- C1 (failing input): with request id 0 the POST route creates no context
(the guard body.id is falsy for 0), and the wrapped tool handler likewise
treats requestId 0 as absent: the registry stays empty for the whole
dispatch, no context for id 0 ever exists, and nothing is deleted. This
contradicts the claim that every request carrying an id, including id = 0,
has a context from dispatch begin until the handler returns. -/
theorem C1_id_zero_gets_no_context :
    routeCreateContext []
        (some { method := some "tools/call", idField := some (.ofId (.n 0)) })
        (some "session-1") (some "replicate-token") 0 = [] ∧
    (wrappedHandlerStates [] (some (.n 0)) 0).2.1 = [] ∧
    ContextRegistry.get (wrappedHandlerStates [] (some (.n 0)) 0).2.1 (.n 0) = none ∧
    (wrappedHandlerStates [] (some (.n 0)) 0).2.2 = [] := by
  refine ⟨rfl, rfl, rfl, rfl⟩

/-- C3: a POST whose method is not initialize, carrying a nonempty
session-id header with no matching live transport, is answered with the
-32600 re-initialize JSON-RPC error (HTTP 400) and the transport map is
left unchanged: no fresh session is created for that call. -/
theorem C3_stale_session_rejected (transports : TransportMap) (nextTransport : Nat)
    (h : String) (body : Option McpBody) (freshUuid : String)
    (hne : h ≠ "") (hmiss : mapGet transports h = none)
    (hnotinit : isInitBody body = false) :
    nodePostSessionStep transports nextTransport (some h) body freshUuid =
      (.staleSession 400 (-32600) "Invalid session. Please re-initialize."
        (nodeBodyIdOrNull body), transports) := by
  simp [nodePostSessionStep, hne, hmiss, hnotinit]

/-- Witness for C3 at a concrete state: one live session "alive", a request
for the unknown session "stale" with method tools/list and id 7. -/
theorem C3_stale_session_rejected_witness :
    nodePostSessionStep [("alive", 1)] 2 (some "stale")
        (some { method := some "tools/list", idField := some (.ofId (.n 7)) }) "uuid-1" =
      (.staleSession 400 (-32600) "Invalid session. Please re-initialize."
        (.ofId (.n 7)), [("alive", 1)]) :=
  C3_stale_session_rejected [("alive", 1)] 2 "stale"
    (some { method := some "tools/list", idField := some (.ofId (.n 7)) }) "uuid-1"
    (by decide) (by decide) (by decide)

/-- C8: starting from the initial state, any sequence of ensureConnected
calls performs the underlying server.connect step at most once per
transport, and a second ensureConnected on an already-ensured transport is
a no-op (it returns the state unchanged, not an error). -/
theorem C8_connect_idempotent (calls : List Nat) (t : Nat) :
    (runEnsure initialConnState calls).connectLog.count t ≤ 1 ∧
    (∀ s : ConnState, ensureConnected (ensureConnected s t) t = ensureConnected s t) := by
  constructor
  · have hinv : connInvariant initialConnState := by
      intro u
      simp [initialConnState]
    exact (runEnsure_invariant calls initialConnState hinv t).1
  · intro s
    by_cases hmem : t ∈ s.connectedTransports
    · simp [ensureConnected, hmem]
    · simp [ensureConnected, hmem]

/-- C7: one run of the expiry sweep keeps exactly the contexts whose age
does not exceed the 10-minute threshold at sweep time: an entry of the
registry survives the sweep unchanged if and only if its age is at most
10 * 60 * 1000 milliseconds, and the sweep adds nothing. -/
theorem C7_sweep_exact (reg : Registry) (now : Int) (e : RequestId × RequestContext) :
    e ∈ ContextRegistry.cleanupExpired reg now ↔
      e ∈ reg ∧ now - e.2.timestamp ≤ 10 * 60 * 1000 := by
  simp [ContextRegistry.cleanupExpired, List.mem_filter]

/-- C5 (counterexample): on the arguments with model the empty string and
input the empty object, the single invalid field model produces two
validation issues (the min-length check and the format check both fail, as
zod evaluates every chained check), so the isError result carries two
message lines for one invalid field — the claimed one-line-per-invalid-
field correspondence fails at this input, though the result is still a
tool reply and the upstream is not contacted. -/
theorem C5_line_per_field_counterexample :
    validateGenerateImage (.obj [("model", .str ""), ("input", .obj [])]) =
      [(["model"], "Model cannot be empty"),
       (["model"],
         "Model must be in format \"owner/name\" (e.g., \"black-forest-labs/flux-schnell\")")] ∧
    invalidFields (validateGenerateImage (.obj [("model", .str ""), ("input", .obj [])])) =
      [["model"]] ∧
    (errLines (validateGenerateImage (.obj [("model", .str ""), ("input", .obj [])]))).length = 2 ∧
    (errLines (validateGenerateImage (.obj [("model", .str ""), ("input", .obj [])]))).length ≠
      (invalidFields (validateGenerateImage (.obj [("model", .str ""), ("input", .obj [])]))).length ∧
    generateImageHandler (.obj [("model", .str ""), ("input", .obj [])]) (some "r8_tok") =
      .reply { isError := true,
               text := "## Invalid Input\n\n- model: Model cannot be empty\n- model: Model must be in format \"owner/name\" (e.g., \"black-forest-labs/flux-schnell\")\n\nTip: Use search_models to see the correct input schema for your model." } := by
  refine ⟨by decide, by decide, by decide, by decide, rfl⟩

/-- C5 (amended): a tools/call whose arguments violate the schema of the
tool gets back a tool result — never a transport-level error and never an
upstream contact — marked isError true, whose text lists one message line
per validation issue, every invalid field contributing at least one line;
for both tools. -/
theorem C5_invalid_args_reply (args : JsonValue) (tok : Option String) :
    (validateGenerateImage args ≠ [] →
      generateImageHandler args tok =
        .reply { isError := true,
                 text := "## Invalid Input\n\n" ++
                   String.intercalate "\n" (errLines (validateGenerateImage args)) ++
                   "\n\nTip: Use search_models to see the correct input schema for your model." } ∧
      (errLines (validateGenerateImage args)).length = (validateGenerateImage args).length ∧
      ∀ path ∈ invalidFields (validateGenerateImage args),
        ∃ msg, (path, msg) ∈ validateGenerateImage args) ∧
    (validateSearchModels args ≠ [] →
      searchModelsHandler args tok =
        .reply { isError := true,
                 text := "## Invalid Input\n\n" ++
                   String.intercalate "\n" (errLines (validateSearchModels args)) } ∧
      (errLines (validateSearchModels args)).length = (validateSearchModels args).length ∧
      ∀ path ∈ invalidFields (validateSearchModels args),
        ∃ msg, (path, msg) ∈ validateSearchModels args) := by
  constructor
  · intro h
    refine ⟨?_, by simp [errLines], ?_⟩
    · cases hl : validateGenerateImage args with
      | nil => exact absurd hl h
      | cons a as => simp [generateImageHandler, hl]
    · intro path hpath
      rw [invalidFields, List.mem_dedup, List.mem_map] at hpath
      obtain ⟨pair, hmem, heq⟩ := hpath
      refine ⟨pair.2, ?_⟩
      rw [← heq]
      simpa using hmem
  · intro h
    refine ⟨?_, by simp [errLines], ?_⟩
    · cases hl : validateSearchModels args with
      | nil => exact absurd hl h
      | cons a as => simp [searchModelsHandler, hl]
    · intro path hpath
      rw [invalidFields, List.mem_dedup, List.mem_map] at hpath
      obtain ⟨pair, hmem, heq⟩ := hpath
      refine ⟨pair.2, ?_⟩
      rw [← heq]
      simpa using hmem

/-- Witness for C5 (amended) at the empty argument object, where both
required fields are missing for generate_image and the query is missing
for search_models. -/
theorem C5_invalid_args_reply_witness :
    generateImageHandler (.obj []) (some "r8_tok") =
      .reply { isError := true,
               text := "## Invalid Input\n\n- model: Required\n- input: Required\n\nTip: Use search_models to see the correct input schema for your model." } ∧
    searchModelsHandler (.obj []) (some "r8_tok") =
      .reply { isError := true, text := "## Invalid Input\n\n- query: Required" } := by
  constructor
  · exact ((C5_invalid_args_reply (.obj []) (some "r8_tok")).1 (by decide)).1
  · exact ((C5_invalid_args_reply (.obj []) (some "r8_tok")).2 (by decide)).1

/-- C10: a generate_image call with schema-valid arguments and a truthy
server-side Replicate token, whose input object has neither a truthy
prompt nor a truthy image field, returns the Missing Required Input error
result and never proceeds to the upstream prediction call — whatever else
the input carries, such as image_input reference images. -/
theorem C10_missing_prompt_and_image (model : String)
    (inputFields : List (String × JsonValue)) (tok : String)
    (hvalid : validateGenerateImage
      (.obj [("model", .str model), ("input", .obj inputFields)]) = [])
    (htok : tok ≠ "")
    (hprompt : jsTruthyOpt (mapGet inputFields "prompt") = false)
    (himage : jsTruthyOpt (mapGet inputFields "image") = false) :
    generateImageHandler (.obj [("model", .str model), ("input", .obj inputFields)])
        (some tok) =
      .reply { isError := true, text := missingRequiredInputText model } := by
  have htokT : strTruthy (some tok) = true := by simp [strTruthy, htok]
  have hg1 : getModelStr (.obj [("model", .str model), ("input", .obj inputFields)]) =
      model := rfl
  have hg2 : getInputFields (.obj [("model", .str model), ("input", .obj inputFields)]) =
      inputFields := rfl
  simp [generateImageHandler, hvalid, htokT, hg1, hg2, hprompt, himage]

/-- Witness for C10: a well-formed model, a truthy token, and an input that
supplies only image_input reference images still gets the Missing Required
Input reply. -/
theorem C10_missing_prompt_and_image_witness :
    generateImageHandler
        (.obj [("model", .str "black-forest-labs/flux-kontext"),
               ("input", .obj [("image_input",
                  .arr [.str "https://example.com/ref1.png",
                        .str "https://example.com/ref2.png"])])])
        (some "r8_secret") =
      .reply { isError := true,
               text := missingRequiredInputText "black-forest-labs/flux-kontext" } :=
  C10_missing_prompt_and_image "black-forest-labs/flux-kontext"
    [("image_input", .arr [.str "https://example.com/ref1.png",
        .str "https://example.com/ref2.png"])]
    "r8_secret" (by decide) (by decide) (by decide) (by decide)

/-- Witness for C6 at a concrete registry holding only the id 1: cancel on
the absent id 2 reports false and leaves the registry unchanged, and
cancel on the present id 1 reports true. -/
theorem C6_cancel_behavior_witness :
    ContextRegistry.cancel (ContextRegistry.create [] (.n 1) none none 0).2 (.n 2) =
      (false, (ContextRegistry.create [] (.n 1) none none 0).2) ∧
    (ContextRegistry.cancel (ContextRegistry.create [] (.n 1) none none 0).2 (.n 1)).1 =
      true := by
  constructor
  · exact (C6_cancel_behavior (ContextRegistry.create [] (.n 1) none none 0).2 (.n 2)).1 rfl
  · exact ((C6_cancel_behavior (ContextRegistry.create [] (.n 1) none none 0).2 (.n 1)).2
      _ rfl).1
